import Mathlib

/-!
Shallow embedding of the console bridge's handler layer
(`packages/console-rust/src/bridge/{error,functions,triggers}.rs` and the
startup sequence of `main.rs`), together with theorems settling the spec's
claims about it.

JSON values are modelled as an inductive type with objects as ordered
association lists; the RPC boundary (`bridge.call_with_timeout`) is modelled
by passing each call's result in explicitly, or by an environment function
`String → Json → Except BridgeError Json` together with an explicit log of
the calls a handler issues.
-/

namespace Console

/-- JSON values, modelling `serde_json::Value`.  Objects are ordered
association lists; numbers are restricted to the integers the handlers
produce (lengths, status codes, ports). -/
inductive Json where
  | null : Json
  | bool : Bool → Json
  | num : Int → Json
  | str : String → Json
  | arr : List Json → Json
  | obj : List (String × Json) → Json

/-- Lookup of a key in an object's field list (first match), modelling
`serde_json::Map::get`. -/
def lookupField : List (String × Json) → String → Option Json
  | [], _ => none
  | (k, v) :: rest, key => if k == key then some v else lookupField rest key

/-- `Value::get(key)`: `Some` only on objects that carry the key. -/
def Json.get : Json → String → Option Json
  | .obj fields, key => lookupField fields key
  | _, _ => none

/-- `Value::as_str`. -/
def Json.asStr : Json → Option String
  | .str s => some s
  | _ => none

/-- `Value::as_array`. -/
def Json.asArray : Json → Option (List Json)
  | .arr xs => some xs
  | _ => none

/-- `Value::is_null`. -/
def Json.isNull : Json → Bool
  | .null => true
  | _ => false

/-- The SDK's error union as matched by `error.rs`
(`NotConnected`, `Timeout`, `Remote{code,message}`, `Handler`, `Serde`,
`WebSocket`). -/
inductive BridgeError where
  | notConnected : BridgeError
  | timeout : BridgeError
  | remote : Int → String → BridgeError
  | handler : String → BridgeError
  | serde : String → BridgeError
  | webSocket : String → BridgeError

/-- `error_response` from `error.rs`: maps a bridge error to the uniform
HTTP response envelope. -/
def error_response (error : BridgeError) : Json :=
  let p : Int × String :=
    match error with
    | .notConnected => (503, "Bridge is not connected")
    | .timeout => (504, "Invocation timed out")
    | .remote code message =>
        (502, "Remote error (" ++ toString code ++ "): " ++ message)
    | .handler msg => (500, "Handler error: " ++ msg)
    | .serde msg => (500, "Serialization error: " ++ msg)
    | .webSocket msg => (503, "WebSocket error: " ++ msg)
  Json.obj [("status_code", Json.num p.1), ("headers", Json.arr []),
    ("body", Json.obj [("error", Json.str p.2)])]

/-- `success_response` from `error.rs`. -/
def success_response (body : Json) : Json :=
  Json.obj [("status_code", Json.num 200), ("headers", Json.arr []),
    ("body", body)]

/-- Rust's `char::is_alphanumeric` (Unicode alphabetic or numeric), modelled
exactly on the Basic Latin and Latin-1 Supplement blocks; code points at or
above U+0100 are outside the model and mapped to `false`. -/
def rustIsAlphanumeric (c : Char) : Bool :=
  let n := c.toNat
  (0x41 ≤ n && n ≤ 0x5A) || (0x61 ≤ n && n ≤ 0x7A) || (0x30 ≤ n && n ≤ 0x39) ||
  n == 0xAA || n == 0xB5 || n == 0xBA ||
  n == 0xB2 || n == 0xB3 || n == 0xB9 || (0xBC ≤ n && n ≤ 0xBE) ||
  (0xC0 ≤ n && n ≤ 0xD6) || (0xD8 ≤ n && n ≤ 0xF6) || (0xF8 ≤ n && n ≤ 0xFF)

/-- The character test used by `validate_flow_id`:
`c.is_alphanumeric() || c == '-' || c == '_' || c == '.'`. -/
def flowIdChar (c : Char) : Bool :=
  rustIsAlphanumeric c || c == '-' || c == '_' || c == '.'

/-- `validate_flow_id` from `functions.rs`: empty ids and ids containing a
character failing `flowIdChar` yield a `Handler` error envelope; otherwise
the id is returned unchanged. -/
def validate_flow_id (id : String) : Except Json String :=
  if id.isEmpty || !(id.data.all flowIdChar) then
    .error (error_response (.handler ("Invalid flow_id: " ++ id)))
  else
    .ok id

/-- ASCII lowercasing of a single character (`u8::to_ascii_lowercase`). -/
def asciiToLower (c : Char) : Char :=
  if 0x41 ≤ c.toNat && c.toNat ≤ 0x5A then Char.ofNat (c.toNat + 32) else c

/-- Rust's `str::eq_ignore_ascii_case`. -/
def eqIgnoreAsciiCase (a b : String) : Bool :=
  a.data.map asciiToLower == b.data.map asciiToLower

/-- `parse_bool_param` from `functions.rs`: read `key` from `query_params`
when that field is present, else from the raw envelope; `true` only for the
boolean `true` or a string ASCII-case-insensitively equal to `"true"`. -/
def parse_bool_param (input : Json) (key : String) : Bool :=
  let params := (input.get "query_params").getD input
  match params.get key with
  | some (.bool b) => b
  | some (.str s) => eqIgnoreAsciiCase s "true"
  | _ => false

/-- One outbound RPC call as issued by `bridge.call_with_timeout`:
procedure name, JSON payload, and deadline in seconds. -/
structure RpcCall where
  proc : String
  payload : Json
  timeoutSecs : Nat

/-- The RPC boundary: responses of the remote engine, one per
(procedure, payload) pair. -/
def RpcEnv : Type := String → Json → Except BridgeError Json

/-- `true` exactly when an RPC call result is `Ok` (`Result::is_ok`). -/
def rpcSucceeded : Except BridgeError Json → Bool
  | .ok _ => true
  | .error _ => false

/-- The count computed by `handle_status` for one constituent result:
`result.ok().and_then(|v| v.get(field).and_then(|w| w.as_array()).map(len)).unwrap_or(0)`. -/
def statusFieldCount (field : String) (result : Except BridgeError Json) : Nat :=
  match result with
  | .ok v =>
      match (v.get field).bind Json.asArray with
      | some a => a.length
      | none => 0
  | .error _ => 0

/-- `handle_status` from `functions.rs`, with the three concurrently issued
RPC results passed in explicitly. -/
def handle_status (workers_result functions_result metrics_result :
    Except BridgeError Json) : Json :=
  success_response (Json.obj
    [("workers", Json.num (Int.ofNat (statusFieldCount "workers" workers_result))),
     ("functions", Json.num (Int.ofNat (statusFieldCount "functions" functions_result))),
     ("status", Json.str "running"),
     ("metrics_available", Json.bool (rpcSucceeded metrics_result))])

/-- The `is_internal` test of `handle_streams_list`:
`id.starts_with("iii.") || id.starts_with("iii:")`. -/
def streamIsInternal (id : String) : Bool :=
  id.startsWith "iii." || id.startsWith "iii:"

/-- The per-descriptor transform of `handle_streams_list`. -/
def streamObject (stream : Json) : Json :=
  let id := ((stream.get "id").bind Json.asStr).getD ""
  let groups : List String :=
    match (stream.get "groups").bind Json.asArray with
    | some a => a.filterMap Json.asStr
    | none => []
  let isInternal := streamIsInternal id
  Json.obj
    [("id", Json.str id),
     ("type", Json.str (if isInternal then "system" else "user")),
     ("description", Json.str (id ++ " stream")),
     ("groups", Json.arr (groups.map Json.str)),
     ("status", Json.str "active"),
     ("internal", Json.bool isInternal)]

/-- `handle_streams_list` from `functions.rs`, with the `stream::list_all`
result passed in explicitly. -/
def handle_streams_list (result : Except BridgeError Json) : Json :=
  match result with
  | .error err => error_response err
  | .ok data =>
      match (data.get "stream").bind Json.asArray with
      | some streams =>
          let stream_objects := streams.map streamObject
          success_response (Json.obj
            [("streams", Json.arr stream_objects),
             ("count", Json.num (Int.ofNat stream_objects.length)),
             ("websocket_port", Json.num 3112)])
      | none =>
          success_response (Json.obj
            [("streams", Json.arr []), ("count", Json.num 0),
             ("websocket_port", Json.num 3112)])

/-- The flow id extraction of `handle_flow_config_get`: `path_params.flow_id`,
else `query_params.flow_id`, else top-level `flow_id`, each as a string. -/
def flowIdOf (input : Json) : Option String :=
  (((input.get "path_params").bind (fun p => p.get "flow_id")).bind Json.asStr)
    <|> (((input.get "query_params").bind (fun p => p.get "flow_id")).bind Json.asStr)
    <|> ((input.get "flow_id").bind Json.asStr)

/-- `handle_flow_config_get` from `functions.rs`, with the `state::get`
result passed in explicitly (it is consulted only after validation). -/
def handle_flow_config_get (state_get_result : Except BridgeError Json)
    (input : Json) : Json :=
  match flowIdOf input with
  | none => error_response (.handler "Missing flow_id parameter")
  | some flow_id =>
      match validate_flow_id flow_id with
      | .error err => err
      | .ok flow_id =>
          match state_get_result with
          | .ok data =>
              if data.isNull then
                success_response (Json.obj
                  [("id", Json.str flow_id), ("config", Json.obj [])])
              else success_response data
          | .error _ =>
              success_response (Json.obj
                [("id", Json.str flow_id), ("config", Json.obj [])])

/-- The scope extraction of `handle_state_group_items`: `body.scope`, else
top-level `scope`, as a string. -/
def scopeOf (input : Json) : Option String :=
  (((input.get "body").bind (fun b => b.get "scope")).bind Json.asStr)
    <|> ((input.get "scope").bind Json.asStr)

/-- `handle_state_group_items` from `functions.rs`, returning the response
together with the log of RPC calls issued. -/
def handle_state_group_items (env : RpcEnv) (input : Json) :
    Json × List RpcCall :=
  match scopeOf input with
  | some scope =>
      let state_input := Json.obj [("scope", Json.str scope)]
      let call : RpcCall := ⟨"state::list", state_input, 5⟩
      match env "state::list" state_input with
      | .ok data =>
          match data.asArray with
          | some items =>
              (success_response (Json.obj
                [("items", Json.arr items),
                 ("count", Json.num (Int.ofNat items.length))]), [call])
          | none =>
              (success_response (Json.obj
                [("items", Json.arr []), ("count", Json.num 0)]), [call])
      | .error err => (error_response err, [call])
  | none => (error_response (.handler "Missing scope in request"), [])

/-- The group extraction of `handle_state_item_set` and
`handle_state_item_delete`: `path_params.group`, else top-level `group`. -/
def groupOf (input : Json) : Option String :=
  (((input.get "path_params").bind (fun p => p.get "group")).bind Json.asStr)
    <|> ((input.get "group").bind Json.asStr)

/-- The key extraction of `handle_state_item_set`: `body.key`, else
top-level `key`. -/
def setKeyOf (input : Json) : Option String :=
  (((input.get "body").bind (fun b => b.get "key")).bind Json.asStr)
    <|> ((input.get "key").bind Json.asStr)

/-- The value extraction of `handle_state_item_set`: `body.value`, else
top-level `value` (any JSON shape). -/
def setValueOf (input : Json) : Option Json :=
  ((input.get "body").bind (fun b => b.get "value")) <|> (input.get "value")

/-- `handle_state_item_set` from `functions.rs`, returning the response
together with the log of RPC calls issued. -/
def handle_state_item_set (env : RpcEnv) (input : Json) :
    Json × List RpcCall :=
  match groupOf input with
  | none => (error_response (.handler "Missing group in path parameters"), [])
  | some group_id =>
      match setKeyOf input with
      | none => (error_response (.handler "Missing key in request body"), [])
      | some item_id =>
          match setValueOf input with
          | none =>
              (error_response (.handler "Missing value in request body"), [])
          | some data =>
              let state_input := Json.obj
                [("scope", Json.str group_id), ("key", Json.str item_id),
                 ("value", data)]
              let call : RpcCall := ⟨"state::set", state_input, 5⟩
              match env "state::set" state_input with
              | .ok d => (success_response d, [call])
              | .error err => (error_response err, [call])

/-- The `body` fallback used by `handle_invoke` and `handle_cron_trigger`:
`input.get("body").unwrap_or(&input)`. -/
def bodyOr (input : Json) : Json :=
  (input.get "body").getD input

/-- The function id extraction of `handle_invoke`: `body.function_id`, else
top-level `function_id`. -/
def invokeFunctionIdOf (input : Json) : Option String :=
  (((bodyOr input).get "function_id").bind Json.asStr)
    <|> ((input.get "function_id").bind Json.asStr)

/-- `handle_invoke` from `functions.rs`, returning the response together
with the log of RPC calls issued. -/
def handle_invoke (env : RpcEnv) (input : Json) : Json × List RpcCall :=
  match invokeFunctionIdOf input with
  | none => (error_response (.handler "Missing function_id in request"), [])
  | some function_id =>
      let data := (((bodyOr input).get "input") <|> (input.get "input")).getD
        (Json.obj [])
      let call : RpcCall := ⟨function_id, data, 30⟩
      match env function_id data with
      | .ok result => (success_response result, [call])
      | .error err => (error_response err, [call])

/-- A single-quote character as a one-character string. -/
def sq : String := String.singleton (Char.ofNat 39)

/-- The trigger id extraction of `handle_cron_trigger`: `body.trigger_id`,
else top-level `trigger_id`, required non-empty. -/
def cronTriggerIdOf (input : Json) : Option String :=
  match (((bodyOr input).get "trigger_id").bind Json.asStr)
      <|> ((input.get "trigger_id").bind Json.asStr) with
  | some id => if id = "" then none else some id
  | none => none

/-- The optional function id of `handle_cron_trigger`: `body.function_id`,
else top-level `function_id`. -/
def cronFunctionIdOf (input : Json) : Option String :=
  (((bodyOr input).get "function_id").bind Json.asStr)
    <|> ((input.get "function_id").bind Json.asStr)

/-- The error message for a trigger id absent from the trigger list. -/
def cronNotFoundMsg (tid : String) : String :=
  "Cron trigger " ++ sq ++ tid ++ sq ++ " not found"

/-- The error message for a trigger whose type is not `"cron"`. -/
def cronNotCronMsg (tid : String) : String :=
  "Trigger " ++ sq ++ tid ++ sq ++ " is not a cron trigger"

/-- The error message for a cron trigger without a usable `function_id`. -/
def cronNoFunctionMsg (tid : String) : String :=
  "Cron trigger " ++ sq ++ tid ++ sq ++ " has no function_id"

/-- The synthesized cron invocation payload of `handle_cron_trigger`. -/
def cronPayload (tid now : String) : Json :=
  Json.obj
    [("trigger", Json.str "cron"), ("job_id", Json.str tid),
     ("scheduled_time", Json.str now), ("actual_time", Json.str now),
     ("manual", Json.bool true), ("source", Json.str "console")]

/-- The payload of the trigger-list fetch: `{include_internal: true}`. -/
def cronListPayload : Json := Json.obj [("include_internal", Json.bool true)]

/-- The trigger-list RPC call issued by `handle_cron_trigger`. -/
def cronListCall : RpcCall := ⟨"engine::triggers::list", cronListPayload, 5⟩

/-- The final invocation step of `handle_cron_trigger`: call the resolved
function with the synthesized payload under a 30-second deadline and wrap
the result. -/
def cronInvoke (env : RpcEnv) (now tid fid : String) (pre : List RpcCall) :
    Json × List RpcCall :=
  let payload := cronPayload tid now
  let call : RpcCall := ⟨fid, payload, 30⟩
  match env fid payload with
  | .ok result =>
      (success_response (Json.obj
        [("trigger_id", Json.str tid), ("function_id", Json.str fid),
         ("result", result)]), pre ++ [call])
  | .error err => (error_response err, pre ++ [call])

/-- The lookup of `handle_cron_trigger` in the fetched trigger list: the
first entry of the `triggers` array whose `id` equals the trigger id. -/
def cronTriggerMatch (triggers_data : Json) (tid : String) : Option Json :=
  ((triggers_data.get "triggers").bind Json.asArray).bind
    (fun triggers => triggers.find?
      (fun trigger => ((trigger.get "id").bind Json.asStr) == some tid))

/-- `handle_cron_trigger` from `functions.rs`, with the current Unix time
string passed in as `now`, returning the response together with the log of
RPC calls issued. -/
def handle_cron_trigger (env : RpcEnv) (now : String) (input : Json) :
    Json × List RpcCall :=
  match cronTriggerIdOf input with
  | none => (error_response (.handler "Missing trigger_id in request"), [])
  | some tid =>
      match cronFunctionIdOf input with
      | some fid => cronInvoke env now tid fid []
      | none =>
          match env "engine::triggers::list" cronListPayload with
          | .error err => (error_response err, [cronListCall])
          | .ok triggers_data =>
              match cronTriggerMatch triggers_data tid with
              | none =>
                  (error_response (.handler (cronNotFoundMsg tid)),
                   [cronListCall])
              | some trigger =>
                  let trigger_type :=
                    ((trigger.get "trigger_type").bind Json.asStr).getD ""
                  if trigger_type ≠ "cron" then
                    (error_response (.handler (cronNotCronMsg tid)),
                     [cronListCall])
                  else
                    match (trigger.get "function_id").bind Json.asStr with
                    | some fid =>
                        if fid = "" then
                          (error_response (.handler (cronNoFunctionMsg tid)),
                           [cronListCall])
                        else cronInvoke env now tid fid [cronListCall]
                    | none =>
                        (error_response (.handler (cronNoFunctionMsg tid)),
                         [cronListCall])

/-- The function names registered by `register_functions`, in source
order. -/
def consoleFunctionNames : List String :=
  ["engine::console::health", "engine::console::workers",
   "engine::console::functions", "engine::console::triggers",
   "engine::console::status", "engine::console::trigger_types",
   "engine::console::alerts_list", "engine::console::sampling_rules",
   "engine::console::otel_logs_list", "engine::console::otel_logs_clear",
   "engine::console::otel_traces_list", "engine::console::otel_traces_clear",
   "engine::console::otel_traces_tree", "engine::console::metrics_detailed",
   "engine::console::rollups_list", "engine::console::state_groups_list",
   "engine::console::state_group_items", "engine::console::state_item_set",
   "engine::console::state_item_delete", "engine::console::streams_list",
   "engine::console::flow_config_get", "engine::console::flow_config_save",
   "engine::console::invoke", "engine::console::cron_trigger"]

/-- The trigger table of `triggers.rs`, in source order:
(function name, api path, HTTP method). -/
def consoleTriggers : List (String × String × String) :=
  [("engine::console::status", "_console/status", "GET"),
   ("engine::console::health", "_console/health", "GET"),
   ("engine::console::functions", "_console/functions", "GET"),
   ("engine::console::triggers", "_console/triggers", "GET"),
   ("engine::console::trigger_types", "_console/trigger-types", "GET"),
   ("engine::console::workers", "_console/workers", "GET"),
   ("engine::console::alerts_list", "_console/alerts", "GET"),
   ("engine::console::sampling_rules", "_console/sampling/rules", "GET"),
   ("engine::console::otel_logs_list", "_console/otel/logs", "POST"),
   ("engine::console::otel_logs_clear", "_console/otel/logs/clear", "POST"),
   ("engine::console::otel_traces_list", "_console/otel/traces", "POST"),
   ("engine::console::otel_traces_clear", "_console/otel/traces/clear",
    "POST"),
   ("engine::console::otel_traces_tree", "_console/otel/traces/tree",
    "POST"),
   ("engine::console::metrics_detailed", "_console/metrics/detailed",
    "POST"),
   ("engine::console::rollups_list", "_console/rollups", "POST"),
   ("engine::console::state_groups_list", "_console/states/groups", "GET"),
   ("engine::console::state_group_items", "_console/states/group", "POST"),
   ("engine::console::state_item_set", "_console/states/:group/item",
    "POST"),
   ("engine::console::state_item_delete",
    "_console/states/:group/item/:key", "DELETE"),
   ("engine::console::streams_list", "_console/streams/list", "GET"),
   ("engine::console::flow_config_get", "_console/flows/config/:flow_id",
    "GET"),
   ("engine::console::flow_config_save", "_console/flows/config/:flow_id",
    "POST")]

/-- The trigger configuration object built by `register_triggers`. -/
def triggerConfig (api_path http_method : String) : Json :=
  Json.obj [("api_path", Json.str api_path),
    ("http_method", Json.str http_method)]

/-- Observable events of the startup sequence of `main.rs`. -/
inductive StartupEvent where
  | registerFunction : String → StartupEvent
  | registerTrigger : String → String → Json → StartupEvent
  | connect : StartupEvent

/-- `true` on registration events, `false` on the connect handshake. -/
def StartupEvent.isRegistration : StartupEvent → Bool
  | .connect => false
  | _ => true

/-- The trigger-registration calls of `register_triggers`: attempted in
source order, stopping after the first failure (`ok` says whether the
SDK accepts a registration); the failing attempt is still a call that was
made. -/
def registerTriggersTrace (ok : String → Bool) :
    List (String × String × String) → List StartupEvent
  | [] => []
  | (f, p, m) :: rest =>
      .registerTrigger "http" f (triggerConfig p m) ::
        (if ok f then registerTriggersTrace ok rest else [])

/-- The startup sequence of `main.rs`: `register_functions`, then
`register_triggers` (a failure is logged, not fatal), then
`bridge.connect()`. -/
def startupTrace (ok : String → Bool) : List StartupEvent :=
  consoleFunctionNames.map StartupEvent.registerFunction
    ++ registerTriggersTrace ok consoleTriggers
    ++ [StartupEvent.connect]

/-- The registration portion of the startup sequence: everything that runs
before `bridge.connect()`. -/
def startupRegistrations (ok : String → Bool) : List StartupEvent :=
  consoleFunctionNames.map StartupEvent.registerFunction
    ++ registerTriggersTrace ok consoleTriggers

/-- `needle` occurs contiguously inside `hay`. -/
def strIn (hay needle : String) : Prop :=
  ∃ pre post, hay.data = pre ++ (needle.data ++ post)

/-- Following the spec's section 6 table: the HTTP status of each error
variant. -/
def claimStatusOf : BridgeError → Int
  | .notConnected => 503
  | .timeout => 504
  | .remote _ _ => 502
  | .handler _ => 500
  | .serde _ => 500
  | .webSocket _ => 503

/-- Following the spec's section 6 table: the message of each error
variant. -/
def claimMessageOf : BridgeError → String
  | .notConnected => "Bridge is not connected"
  | .timeout => "Invocation timed out"
  | .remote code message =>
      "Remote error (" ++ toString code ++ "): " ++ message
  | .handler msg => "Handler error: " ++ msg
  | .serde msg => "Serialization error: " ++ msg
  | .webSocket msg => "WebSocket error: " ++ msg

/-- Following the spec's words for the status endpoint: length of the named
array field, or 0 if the call failed or the field is absent or not an
array. -/
def claimFieldCount (field : String) (r : Except BridgeError Json) : Nat :=
  match r with
  | .error _ => 0
  | .ok v =>
      match v.get field with
      | some (Json.arr a) => a.length
      | _ => 0

theorem statusFieldCount_eq (field : String) (r : Except BridgeError Json) :
    statusFieldCount field r = claimFieldCount field r := by
  cases r with
  | error e => rfl
  | ok v =>
      show (match (v.get field).bind Json.asArray with
            | some a => a.length
            | none => 0) =
          (match v.get field with
            | some (Json.arr a) => a.length
            | _ => 0)
      cases hv : v.get field with
      | none => rfl
      | some j => cases j <;> rfl

/-- C2: for every value of the error union, `error_response` produces
exactly the status code and message of the spec's section 6 table, and the
envelope always has headers `[]` and a body of the form
`{error: message}`. -/
theorem error_response_matches_table (e : BridgeError) :
    error_response e = Json.obj
      [("status_code", Json.num (claimStatusOf e)),
       ("headers", Json.arr []),
       ("body", Json.obj [("error", Json.str (claimMessageOf e))])] := by
  cases e <;> rfl

/-- C3: for every outcome of the three constituent RPC calls, the status
handler returns a success envelope (status 200, never an error), with
`workers` and `functions` the lengths of the corresponding arrays (0 on
failure or a missing/non-array field) and `metrics_available` true exactly
when the metrics call succeeded. -/
theorem handle_status_spec (w f m : Except BridgeError Json) :
    handle_status w f m = success_response (Json.obj
      [("workers", Json.num (Int.ofNat (claimFieldCount "workers" w))),
       ("functions", Json.num (Int.ofNat (claimFieldCount "functions" f))),
       ("status", Json.str "running"),
       ("metrics_available", Json.bool (rpcSucceeded m))]) ∧
    (handle_status w f m).get "status_code" = some (Json.num 200) := by
  constructor
  · rw [handle_status, statusFieldCount_eq, statusFieldCount_eq]
  · rfl

theorem map_asciiToLower_true :
    "true".data.map asciiToLower = "true".data := by decide

/-- C5: `parse_bool_param` reads the key from `query_params` when present,
else from the raw envelope, and returns `true` exactly when the value found
there is the boolean `true` or a string case-insensitively equal to
`"true"`; every other shape yields `false`. -/
theorem parse_bool_param_spec (input : Json) (key : String) :
    parse_bool_param input key = true ↔
      ∃ v, ((input.get "query_params").getD input).get key = some v ∧
        (v = Json.bool true ∨
          ∃ s, v = Json.str s ∧ s.data.map asciiToLower = "true".data) := by
  unfold parse_bool_param
  cases hv : ((input.get "query_params").getD input).get key with
  | none => simp [hv]
  | some v =>
      cases v with
      | null => simp [hv]
      | bool b => cases b <;> simp [hv]
      | num n => simp [hv]
      | str s =>
          simp only [hv, Option.some.injEq, eqIgnoreAsciiCase,
            map_asciiToLower_true, beq_iff_eq]
          constructor
          · intro hs
            exact ⟨Json.str s, rfl, Or.inr ⟨s, rfl, hs⟩⟩
          · rintro ⟨v, hv2, hcase⟩
            cases hv2
            rcases hcase with h | ⟨s2, hs2, hmap⟩
            · cases h
            · cases hs2; exact hmap
      | arr xs => simp [hv]
      | obj fields => simp [hv]

/-- Following the claim's words for C1: the ASCII character class
`[A-Za-z0-9_.-]`. -/
def claimFlowIdChar (c : Char) : Bool :=
  (0x41 ≤ c.toNat && c.toNat ≤ 0x5A) || (0x61 ≤ c.toNat && c.toNat ≤ 0x7A) ||
  (0x30 ≤ c.toNat && c.toNat ≤ 0x39) || c == '_' || c == '.' || c == '-'

/-- C1 (counterexample): the claim says every string containing a character
outside `[A-Za-z0-9_.-]` is rejected, but the code tests Rust's Unicode
`char::is_alphanumeric`, so the id `"é"` — whose only character is outside
the claimed class — is accepted unchanged. -/
theorem validate_flow_id_counterexample :
    validate_flow_id "é" = Except.ok "é" ∧ claimFlowIdChar 'é' = false :=
  ⟨rfl, rfl⟩

/-- C1 (amended): on strings of the Basic Latin and Latin-1 blocks (where
the embedding of `char::is_alphanumeric` is exact), `validate_flow_id`
accepts exactly the non-empty strings whose every character is Unicode
alphanumeric or one of `-`, `_`, `.`, returning the id unchanged; every
other string yields the `Handler` error envelope whose message contains the
offending id. -/
theorem validate_flow_id_spec (id : String)
    (_hlatin : ∀ c ∈ id.data, c.toNat < 256) :
    (validate_flow_id id = Except.ok id ↔
      id ≠ "" ∧ ∀ c ∈ id.data, flowIdChar c = true) ∧
    (¬(id ≠ "" ∧ ∀ c ∈ id.data, flowIdChar c = true) →
      validate_flow_id id =
        Except.error (error_response
          (.handler ("Invalid flow_id: " ++ id))) ∧
      strIn ("Invalid flow_id: " ++ id) id) := by
  have hcond : (id.isEmpty || !(id.data.all flowIdChar)) = false ↔
      (id ≠ "" ∧ ∀ c ∈ id.data, flowIdChar c = true) := by
    rw [Bool.or_eq_false_iff]
    constructor
    · rintro ⟨h1, h2⟩
      refine ⟨fun hid => ?_, ?_⟩
      · rw [(String.isEmpty_iff id).mpr hid] at h1
        cases h1
      · rw [Bool.not_eq_false'] at h2
        exact List.all_eq_true.mp h2
    · rintro ⟨h1, h2⟩
      refine ⟨?_, ?_⟩
      · cases he : id.isEmpty with
        | false => rfl
        | true => exact absurd ((String.isEmpty_iff id).mp he) h1
      · rw [Bool.not_eq_false']
        exact List.all_eq_true.mpr h2
  constructor
  · constructor
    · intro hok
      refine hcond.mp ?_
      cases hb : (id.isEmpty || !(id.data.all flowIdChar)) with
      | false => rfl
      | true =>
          exfalso
          have hval : validate_flow_id id =
              Except.error (error_response
                (.handler ("Invalid flow_id: " ++ id))) := by
            simp [validate_flow_id, hb]
          rw [hok] at hval
          simp at hval
    · intro hr
      have hf := hcond.mpr hr
      simp [validate_flow_id, hf]
  · intro hr
    have h : (id.isEmpty || !(id.data.all flowIdChar)) = true := by
      cases hb : (id.isEmpty || !(id.data.all flowIdChar)) with
      | true => rfl
      | false => exact absurd (hcond.mp hb) hr
    constructor
    · simp [validate_flow_id, h]
    · refine ⟨("Invalid flow_id: ").data, [], ?_⟩
      simp [String.data_append]

theorem validate_flow_id_spec_witness :
    validate_flow_id "flow-1.a_b" = Except.ok "flow-1.a_b" :=
  (validate_flow_id_spec "flow-1.a_b" (by decide)).1.mpr
    ⟨by decide, by decide⟩

/-- C6: for every request whose flow id passes validation, a `state::get`
result of JSON `null` and any RPC error both yield a success envelope with
body `{id, config:{}}`; a validated flow-config get never surfaces a
store-level error. -/
theorem handle_flow_config_get_spec (r : Except BridgeError Json)
    (input : Json) (fid : String)
    (h1 : flowIdOf input = some fid)
    (h2 : validate_flow_id fid = Except.ok fid)
    (h3 : r = Except.ok Json.null ∨ ∃ e, r = Except.error e) :
    handle_flow_config_get r input = success_response
      (Json.obj [("id", Json.str fid), ("config", Json.obj [])]) := by
  rcases h3 with h3 | ⟨e, h3⟩ <;> subst h3 <;>
    simp [handle_flow_config_get, h1, h2, Json.isNull]

theorem handle_flow_config_get_spec_witness :
    handle_flow_config_get (Except.error BridgeError.timeout)
      (Json.obj [("path_params",
        Json.obj [("flow_id", Json.str "never-saved")])]) =
    success_response (Json.obj
      [("id", Json.str "never-saved"), ("config", Json.obj [])]) :=
  handle_flow_config_get_spec _ _ "never-saved" rfl rfl
    (Or.inr ⟨BridgeError.timeout, rfl⟩)

/-- C7: for every envelope missing a required field — `state_item_set`
without a group, key, or value, `state_group_items` without a scope — the
handler returns a `Handler` error naming the missing field, the errors for
distinct missing fields are pairwise distinct, and the handler issues zero
RPC calls. -/
theorem missing_field_errors_spec (env : RpcEnv) (input : Json) :
    (groupOf input = none →
      handle_state_item_set env input =
        (error_response (.handler "Missing group in path parameters"), [])) ∧
    (∀ g, groupOf input = some g → setKeyOf input = none →
      handle_state_item_set env input =
        (error_response (.handler "Missing key in request body"), [])) ∧
    (∀ g k, groupOf input = some g → setKeyOf input = some k →
      setValueOf input = none →
      handle_state_item_set env input =
        (error_response (.handler "Missing value in request body"), [])) ∧
    (scopeOf input = none →
      handle_state_group_items env input =
        (error_response (.handler "Missing scope in request"), [])) ∧
    ("Missing group in path parameters" ≠ "Missing key in request body" ∧
     "Missing group in path parameters" ≠ "Missing value in request body" ∧
     "Missing group in path parameters" ≠ "Missing scope in request" ∧
     "Missing key in request body" ≠ "Missing value in request body" ∧
     "Missing key in request body" ≠ "Missing scope in request" ∧
     "Missing value in request body" ≠ "Missing scope in request") := by
  refine ⟨?_, ?_, ?_, ?_, by decide⟩
  · intro h
    simp [handle_state_item_set, h]
  · intro g h1 h2
    simp [handle_state_item_set, h1, h2]
  · intro g k h1 h2 h3
    simp [handle_state_item_set, h1, h2, h3]
  · intro h
    simp [handle_state_group_items, h]

theorem missing_field_errors_spec_witness :
    handle_state_item_set (fun _ _ => Except.ok Json.null) (Json.obj []) =
      (error_response (.handler "Missing group in path parameters"), []) ∧
    handle_state_item_set (fun _ _ => Except.ok Json.null)
      (Json.obj [("group", Json.str "g")]) =
      (error_response (.handler "Missing key in request body"), []) ∧
    handle_state_item_set (fun _ _ => Except.ok Json.null)
      (Json.obj [("group", Json.str "g"), ("key", Json.str "k")]) =
      (error_response (.handler "Missing value in request body"), []) ∧
    handle_state_group_items (fun _ _ => Except.ok Json.null) (Json.obj []) =
      (error_response (.handler "Missing scope in request"), []) :=
  ⟨(missing_field_errors_spec _ _).1 rfl,
   (missing_field_errors_spec _ _).2.1 "g" rfl rfl,
   (missing_field_errors_spec _ _).2.2.1 "g" "k" rfl rfl rfl,
   (missing_field_errors_spec _ _).2.2.2.1 rfl⟩

/-- C8: when the `stream::list_all` call succeeds, every remote stream
descriptor is transformed into `{id, type, description, groups, status,
internal}` with `type = "system"` and `internal = true` exactly when the id
starts with `"iii."` or `"iii:"`; a successful payload without the expected
array shape yields a success envelope with an empty streams list; an RPC
error propagates as an error response. -/
theorem handle_streams_list_spec (r : Except BridgeError Json) :
    (∀ e, r = Except.error e → handle_streams_list r = error_response e) ∧
    (∀ d, r = Except.ok d → (d.get "stream").bind Json.asArray = none →
      handle_streams_list r = success_response (Json.obj
        [("streams", Json.arr []), ("count", Json.num 0),
         ("websocket_port", Json.num 3112)])) ∧
    (∀ d ss, r = Except.ok d →
      (d.get "stream").bind Json.asArray = some ss →
      handle_streams_list r = success_response (Json.obj
        [("streams", Json.arr (ss.map streamObject)),
         ("count", Json.num (Int.ofNat ss.length)),
         ("websocket_port", Json.num 3112)]) ∧
      ∀ s ∈ ss,
        streamObject s = Json.obj
          [("id", Json.str (((s.get "id").bind Json.asStr).getD "")),
           ("type", Json.str
             (if streamIsInternal (((s.get "id").bind Json.asStr).getD "")
              then "system" else "user")),
           ("description", Json.str
             ((((s.get "id").bind Json.asStr).getD "") ++ " stream")),
           ("groups", Json.arr
             ((match (s.get "groups").bind Json.asArray with
               | some a => a.filterMap Json.asStr
               | none => []).map Json.str)),
           ("status", Json.str "active"),
           ("internal", Json.bool
             (streamIsInternal (((s.get "id").bind Json.asStr).getD "")))]) := by
  refine ⟨?_, ?_, ?_⟩
  · intro e he
    subst he
    rfl
  · intro d hd hshape
    subst hd
    simp [handle_streams_list, hshape]
  · intro d ss hd hshape
    subst hd
    constructor
    · simp [handle_streams_list, hshape]
    · intro s _
      rfl

theorem handle_streams_list_spec_witness :
    handle_streams_list (Except.error BridgeError.timeout) =
      error_response BridgeError.timeout ∧
    handle_streams_list (Except.ok Json.null) = success_response (Json.obj
      [("streams", Json.arr []), ("count", Json.num 0),
       ("websocket_port", Json.num 3112)]) ∧
    handle_streams_list (Except.ok (Json.obj [("stream", Json.arr
        [Json.obj [("id", Json.str "iii.internal")]])])) =
      success_response (Json.obj
        [("streams", Json.arr
           ([Json.obj [("id", Json.str "iii.internal")]].map streamObject)),
         ("count", Json.num 1),
         ("websocket_port", Json.num 3112)]) :=
  ⟨(handle_streams_list_spec _).1 BridgeError.timeout rfl,
   (handle_streams_list_spec _).2.1 Json.null rfl rfl,
   ((handle_streams_list_spec _).2.2
      (Json.obj [("stream", Json.arr
        [Json.obj [("id", Json.str "iii.internal")]])])
      [Json.obj [("id", Json.str "iii.internal")]] rfl rfl).1⟩

/-- C10: an invoke envelope that yields a function id but carries no
`input` field in either the body or the top level is not rejected: the
named function is invoked with the empty JSON object under the 30-second
deadline. -/
theorem handle_invoke_default_input_spec (env : RpcEnv) (input : Json)
    (fid : String)
    (h1 : invokeFunctionIdOf input = some fid)
    (h2 : (bodyOr input).get "input" = none)
    (h3 : input.get "input" = none) :
    handle_invoke env input =
      ((match env fid (Json.obj []) with
        | .ok result => success_response result
        | .error err => error_response err),
       [⟨fid, Json.obj [], 30⟩]) := by
  simp only [handle_invoke, h1, h2, h3, Option.none_orElse, Option.getD_none]
  cases henv : env fid (Json.obj []) <;> simp [henv]

theorem handle_invoke_default_input_spec_witness :
    handle_invoke (fun _ _ => Except.ok Json.null)
      (Json.obj [("function_id", Json.str "fn.a")]) =
    (success_response Json.null,
     [⟨"fn.a", Json.obj [], 30⟩]) :=
  handle_invoke_default_input_spec (fun _ _ => Except.ok Json.null)
    (Json.obj [("function_id", Json.str "fn.a")]) "fn.a" rfl rfl rfl

theorem cronNotFoundMsg_length (tid : String) :
    (cronNotFoundMsg tid).length = 25 + tid.length := by
  have h1 : ("Cron trigger ").length = 13 := rfl
  have h2 : sq.length = 1 := rfl
  have h3 : (" not found").length = 10 := rfl
  simp only [cronNotFoundMsg, String.length_append, h1, h2, h3]
  omega

theorem cronNotCronMsg_length (tid : String) :
    (cronNotCronMsg tid).length = 32 + tid.length := by
  have h1 : ("Trigger ").length = 8 := rfl
  have h2 : sq.length = 1 := rfl
  have h3 : (" is not a cron trigger").length = 22 := rfl
  simp only [cronNotCronMsg, String.length_append, h1, h2, h3]
  omega

theorem cronNoFunctionMsg_length (tid : String) :
    (cronNoFunctionMsg tid).length = 34 + tid.length := by
  have h1 : ("Cron trigger ").length = 13 := rfl
  have h2 : sq.length = 1 := rfl
  have h3 : (" has no function_id").length = 19 := rfl
  simp only [cronNoFunctionMsg, String.length_append, h1, h2, h3]
  omega

theorem cronMsgs_pairwise (tid : String) :
    cronNotFoundMsg tid ≠ cronNotCronMsg tid ∧
    cronNotFoundMsg tid ≠ cronNoFunctionMsg tid ∧
    cronNotCronMsg tid ≠ cronNoFunctionMsg tid := by
  refine ⟨fun h => ?_, fun h => ?_, fun h => ?_⟩ <;>
  · have hl := congrArg String.length h
    simp only [cronNotFoundMsg_length, cronNotCronMsg_length,
      cronNoFunctionMsg_length] at hl
    omega

theorem cronNotFoundMsg_contains_tid (tid : String) :
    strIn (cronNotFoundMsg tid) tid :=
  ⟨("Cron trigger " ++ sq).data, (sq ++ " not found").data, by
    simp [cronNotFoundMsg, String.data_append]⟩

theorem cronNotFoundMsg_contains_not_found (tid : String) :
    strIn (cronNotFoundMsg tid) "not found" :=
  ⟨("Cron trigger " ++ sq).data ++ (tid.data ++ (sq ++ " ").data), [], by
    have hx : (" not found").data = (" ").data ++ ("not found").data := rfl
    simp [cronNotFoundMsg, String.data_append, hx]⟩

/-- C4: cron re-invocation resolution.  With a valid trigger id: a supplied
function id is used directly with no trigger-list fetch; otherwise the full
trigger list is fetched with `include_internal` and the entry with matching
id looked up — no match yields a `Handler` error containing the trigger id
and "not found", a non-cron match yields a distinct `Handler` error, a cron
match without a non-empty function id yields a third distinct `Handler`
error, and the three messages are pairwise distinct. -/
theorem handle_cron_trigger_spec (env : RpcEnv) (now : String) (input : Json)
    (tid : String) (h : cronTriggerIdOf input = some tid) :
    (∀ fid, cronFunctionIdOf input = some fid →
      handle_cron_trigger env now input = cronInvoke env now tid fid [] ∧
      (handle_cron_trigger env now input).2 =
        [⟨fid, cronPayload tid now, 30⟩]) ∧
    (cronFunctionIdOf input = none →
      ∀ td, env "engine::triggers::list" cronListPayload = Except.ok td →
        (cronTriggerMatch td tid = none →
          handle_cron_trigger env now input =
            (error_response (.handler (cronNotFoundMsg tid)),
             [cronListCall])) ∧
        (∀ tr, cronTriggerMatch td tid = some tr →
          (((tr.get "trigger_type").bind Json.asStr).getD "" ≠ "cron" →
            handle_cron_trigger env now input =
              (error_response (.handler (cronNotCronMsg tid)),
               [cronListCall])) ∧
          (((tr.get "trigger_type").bind Json.asStr).getD "" = "cron" →
            ((tr.get "function_id").bind Json.asStr = none ∨
             (tr.get "function_id").bind Json.asStr = some "") →
            handle_cron_trigger env now input =
              (error_response (.handler (cronNoFunctionMsg tid)),
               [cronListCall])))) ∧
    strIn (cronNotFoundMsg tid) tid ∧
    strIn (cronNotFoundMsg tid) "not found" ∧
    cronNotFoundMsg tid ≠ cronNotCronMsg tid ∧
    cronNotFoundMsg tid ≠ cronNoFunctionMsg tid ∧
    cronNotCronMsg tid ≠ cronNoFunctionMsg tid := by
  refine ⟨?_, ?_, cronNotFoundMsg_contains_tid tid,
    cronNotFoundMsg_contains_not_found tid, (cronMsgs_pairwise tid).1,
    (cronMsgs_pairwise tid).2.1, (cronMsgs_pairwise tid).2.2⟩
  · intro fid hfid
    have he : handle_cron_trigger env now input =
        cronInvoke env now tid fid [] := by
      simp [handle_cron_trigger, h, hfid]
    refine ⟨he, ?_⟩
    rw [he]
    unfold cronInvoke
    cases henv : env fid (cronPayload tid now) <;> simp [henv]
  · intro hfid td htd
    refine ⟨?_, ?_⟩
    · intro hmatch
      simp [handle_cron_trigger, h, hfid, htd, hmatch]
    · intro tr hmatch
      refine ⟨?_, ?_⟩
      · intro hty
        simp [handle_cron_trigger, h, hfid, htd, hmatch, hty]
      · intro hty hfid2
        rcases hfid2 with h2 | h2 <;>
          simp [handle_cron_trigger, h, hfid, htd, hmatch, hty, h2]

theorem handle_cron_trigger_spec_witness :
    handle_cron_trigger (fun _ _ => Except.ok Json.null) "1700000000"
      (Json.obj [("trigger_id", Json.str "nightly"),
        ("function_id", Json.str "fn")]) =
      cronInvoke (fun _ _ => Except.ok Json.null) "1700000000"
        "nightly" "fn" [] ∧
    handle_cron_trigger
      (fun _ _ => Except.ok (Json.obj [("triggers", Json.arr [])]))
      "1700000000" (Json.obj [("trigger_id", Json.str "nightly")]) =
      (error_response (.handler (cronNotFoundMsg "nightly")),
       [cronListCall]) :=
  ⟨((handle_cron_trigger_spec (fun _ _ => Except.ok Json.null) "1700000000"
      (Json.obj [("trigger_id", Json.str "nightly"),
        ("function_id", Json.str "fn")]) "nightly" rfl).1 "fn" rfl).1,
   ((handle_cron_trigger_spec
      (fun _ _ => Except.ok (Json.obj [("triggers", Json.arr [])]))
      "1700000000" (Json.obj [("trigger_id", Json.str "nightly")])
      "nightly" rfl).2.1 rfl
      (Json.obj [("triggers", Json.arr [])]) rfl).1 rfl⟩

theorem registerTriggersTrace_events (ok : String → Bool) :
    ∀ l : List (String × String × String),
      ∀ e ∈ registerTriggersTrace ok l, e.isRegistration = true := by
  intro l
  induction l with
  | nil => intro e he; cases he
  | cons hd tl ih =>
      intro e he
      obtain ⟨f, p, m⟩ := hd
      rcases List.mem_cons.mp he with rfl | he'
      · rfl
      · by_cases hok : ok f = true
        · rw [show registerTriggersTrace ok ((f, p, m) :: tl) =
              StartupEvent.registerTrigger "http" f (triggerConfig p m) ::
                registerTriggersTrace ok tl by
            simp [registerTriggersTrace, hok]] at he
          rcases List.mem_cons.mp he with rfl | he2
          · rfl
          · exact ih e he2
        · rw [show registerTriggersTrace ok ((f, p, m) :: tl) =
              [StartupEvent.registerTrigger "http" f (triggerConfig p m)] by
            simp [registerTriggersTrace, hok]] at he
          rcases List.mem_cons.mp he with rfl | he2
          · rfl
          · cases he2

theorem registerTriggersTrace_complete (ok : String → Bool) :
    ∀ l : List (String × String × String), (∀ t ∈ l, ok t.1 = true) →
      ∀ t ∈ l,
        StartupEvent.registerTrigger "http" t.1 (triggerConfig t.2.1 t.2.2)
          ∈ registerTriggersTrace ok l := by
  intro l
  induction l with
  | nil => intro _ t ht; cases ht
  | cons hd tl ih =>
      intro hall t ht
      obtain ⟨f, p, m⟩ := hd
      have hok : ok f = true := hall (f, p, m) (List.mem_cons_self _ _)
      rw [show registerTriggersTrace ok ((f, p, m) :: tl) =
          StartupEvent.registerTrigger "http" f (triggerConfig p m) ::
            registerTriggersTrace ok tl by
        simp [registerTriggersTrace, hok]]
      rcases List.mem_cons.mp ht with rfl | ht'
      · exact List.mem_cons_self _ _
      · exact List.mem_cons_of_mem _
          (ih (fun t2 ht2 => hall t2 (List.mem_cons_of_mem _ ht2)) t ht')

/-- C9: in the startup sequence, every function registration and every
trigger registration precedes the transport's connection handshake: the
trace is the registrations followed by `connect`, all events before
`connect` are registrations, and (when the SDK accepts every registration)
all 24 function names and all 22 trigger-table entries appear among
them. -/
theorem registration_before_connect (ok : String → Bool) :
    startupTrace ok = startupRegistrations ok ++ [StartupEvent.connect] ∧
    (∀ e ∈ startupRegistrations ok, e.isRegistration = true) ∧
    (∀ n ∈ consoleFunctionNames,
      StartupEvent.registerFunction n ∈ startupRegistrations ok) ∧
    ((∀ t ∈ consoleTriggers, ok t.1 = true) →
      ∀ t ∈ consoleTriggers,
        StartupEvent.registerTrigger "http" t.1 (triggerConfig t.2.1 t.2.2)
          ∈ startupRegistrations ok) := by
  refine ⟨?_, ?_, ?_, ?_⟩
  · simp [startupTrace, startupRegistrations, List.append_assoc]
  · intro e he
    rcases List.mem_append.mp he with he' | he'
    · obtain ⟨n, _, rfl⟩ := List.mem_map.mp he'
      rfl
    · exact registerTriggersTrace_events ok consoleTriggers e he'
  · intro n hn
    exact List.mem_append.mpr (Or.inl (List.mem_map_of_mem _ hn))
  · intro hall t ht
    exact List.mem_append.mpr
      (Or.inr (registerTriggersTrace_complete ok consoleTriggers hall t ht))

theorem registration_before_connect_witness :
    startupTrace (fun _ => true) =
      startupRegistrations (fun _ => true) ++ [StartupEvent.connect] ∧
    StartupEvent.registerFunction "engine::console::status"
      ∈ startupRegistrations (fun _ => true) ∧
    StartupEvent.registerTrigger "http" "engine::console::status"
        (triggerConfig "_console/status" "GET")
      ∈ startupRegistrations (fun _ => true) :=
  ⟨(registration_before_connect (fun _ => true)).1,
   (registration_before_connect (fun _ => true)).2.2.1
     "engine::console::status" (by decide),
   (registration_before_connect (fun _ => true)).2.2.2 (fun _ _ => rfl)
     ("engine::console::status", "_console/status", "GET") (by decide)⟩

end Console
